import Mathlib

/-
Shallow embedding of the IBAN validation engine of salespark-toolkit,
file src/utils/iban.ts.

Modelling conventions:
* JavaScript numbers (which here are always integral or NaN) are modelled as
  `Option Int`, with `none` standing for `NaN`.  `parseInt`, `%`, `+`, `*`,
  `-` and strict equality `===` are modelled by `jsParseIntL`, `jsMod`,
  `jsAdd`, `jsMul`, `jsSub` and `jsEq`, each propagating NaN as the source
  semantics does (`NaN === x` is false for every `x`).
* JavaScript strings become `String` / `List Char`.  `s.charAt(i)` (which
  yields a one-character string, or "" out of range) becomes
  `charAtL cs i = (cs.drop i).take 1`; `s.substring(a, b)` becomes
  `(cs.drop a).take (b - a)` (JavaScript clamps negative indices to 0, which
  matches truncated `Nat` subtraction at the call sites below);
  `String(n)` for an integral number becomes `jsIntRepr`.
* `toUpperCase` is modelled on the ASCII letters (the only characters that
  survive the shape checks of the validator).
* The `while` loop of `mod97` need not terminate on arbitrary input (for
  example the remainder string "-26" reproduces itself forever), so the loop
  is modelled with explicit fuel: `mod97Iter fuel cs` returns `none` when the
  fuel runs out and `some r` with the JS result `r` otherwise.  Every
  terminating run of the source loop strictly shortens the remainder string
  at each iteration (a non-shortening step produces a self-reproducing
  three-character negative remainder), so fuel `cs.length + 1` is an upper
  bound for every terminating run and `mod97L cs = none` exactly models
  non-termination of the source.
-/

/-- JS numbers as they occur in this module; `none` models `NaN`. -/
abbrev JSNum := Option Int

/-- Code points matched by JavaScript `\s` (ECMAScript WhiteSpace and
LineTerminator). -/
def jsWhitespaceCodes : List Nat :=
  [9, 10, 11, 12, 13, 32, 160, 5760, 8192, 8193, 8194, 8195, 8196, 8197,
   8198, 8199, 8200, 8201, 8202, 8232, 8233, 8239, 8287, 12288, 65279]

def jsWhitespaceChar (c : Char) : Bool :=
  decide (c.toNat ∈ jsWhitespaceCodes)

/-- The character class `[0-9]`. -/
def isDigitChar (c : Char) : Bool :=
  48 ≤ c.toNat && c.toNat ≤ 57

/-- The character class `[A-Z]`. -/
def isUpperAZ (c : Char) : Bool :=
  65 ≤ c.toNat && c.toNat ≤ 90

/-- Numeric value of a decimal digit character. -/
def digitToNat (c : Char) : Nat := c.toNat - 48

/-- Numeric value of a decimal digit string (most significant digit first). -/
def digitsToNat (cs : List Char) : Nat :=
  cs.foldl (fun a c => a * 10 + digitToNat c) 0

/-- JavaScript `parseInt(s, 10)`: skip leading whitespace, read an optional
sign, then the longest prefix of decimal digits; `NaN` when that prefix is
empty.  (Radix 10 is fixed at every call site of the source.) -/
def jsParseIntL (cs : List Char) : JSNum :=
  match cs.dropWhile jsWhitespaceChar with
  | [] => none
  | c :: r =>
      if c = '-' then
        let ds := r.takeWhile isDigitChar
        if ds.isEmpty then none else some (-(digitsToNat ds : Int))
      else if c = '+' then
        let ds := r.takeWhile isDigitChar
        if ds.isEmpty then none else some ((digitsToNat ds : Int))
      else
        let ds := (c :: r).takeWhile isDigitChar
        if ds.isEmpty then none else some ((digitsToNat ds : Int))

def jsAdd : JSNum → JSNum → JSNum
  | some a, some b => some (a + b)
  | _, _ => none

def jsMul : JSNum → JSNum → JSNum
  | some a, some b => some (a * b)
  | _, _ => none

def jsSub : JSNum → JSNum → JSNum
  | some a, some b => some (a - b)
  | _, _ => none

/-- JavaScript `%` (remainder truncated toward zero; `x % 0` is `NaN`). -/
def jsMod : JSNum → JSNum → JSNum
  | some a, some b => if b = 0 then none else some (Int.tmod a b)
  | _, _ => none

/-- JavaScript strict equality `===` restricted to numbers: false whenever
either side is `NaN`. -/
def jsEq : JSNum → JSNum → Bool
  | some a, some b => a == b
  | _, _ => false

/-- JavaScript `String(n)` for an integral number. -/
def jsIntRepr : Int → String
  | Int.ofNat m => Nat.repr m
  | Int.negSucc m => "-" ++ Nat.repr (m + 1)

/-- One-character string `s.charAt(i)` (empty out of range). -/
def charAtL (cs : List Char) (i : Nat) : List Char :=
  (cs.drop i).take 1

/-- JS array indexing producing `NaN` after arithmetic when out of range
(`undefined * x` is `NaN`). -/
def jsIdx (l : List Nat) (i : Nat) : JSNum :=
  match l.get? i with
  | some w => some (w : Int)
  | none => none

/-- The `while (remainder.length > 2)` loop of `mod97` (iban.ts lines
98-111), with explicit fuel.  The outer `Option` marks fuel exhaustion
(= non-termination of the source loop); the inner `JSNum` is the JS result of the function, `some none` being a returned `NaN`. -/
def mod97Iter : Nat → List Char → Option JSNum
  | 0, _ => none
  | fuel + 1, remainder =>
    if 2 < remainder.length then
      let chunk := remainder.take 9
      match jsParseIntL chunk with
      | none => some none
      | some chunkNum =>
          mod97Iter fuel
            ((jsIntRepr (Int.tmod chunkNum 97)).data ++ remainder.drop chunk.length)
    else
      some (jsMod (jsParseIntL remainder) (some 97))

/-- Function `mod97` of iban.ts on a character list.  Fuel `cs.length + 1` bounds the
iteration count of every terminating run of the source loop. -/
def mod97L (cs : List Char) : Option JSNum :=
  mod97Iter (cs.length + 1) cs

/-- Function `mod97(numStr)` of iban.ts (lines 98-111). -/
def mod97 (numStr : String) : Option JSNum :=
  mod97L numStr.data

/-- The separator class `[\s.]` stripped by several strategies. -/
def jsSpaceDot (c : Char) : Bool :=
  jsWhitespaceChar c || c == '.'

/-- The loop `for (i = 0; i < count; i++) sum += parseInt(cs.charAt(i)) * ws[i]`
shared by the weighted-sum strategies (JS number semantics, NaN poisoning). -/
def jsWeightedSum (cs : List Char) (ws : List Nat) (count : Nat) : JSNum :=
  (List.range count).foldl
    (fun acc i => jsAdd acc (jsMul (jsParseIntL (charAtL cs i)) (jsIdx ws i)))
    (some 0)

/-- Strategy `checkMod97BBAN` (iban.ts lines 417-420). -/
def checkMod97BBAN (bban : String) : Option Bool :=
  let stripped := bban.data.filter (fun c => !jsSpaceDot c)
  (mod97L stripped).map (fun r => jsEq r (some 1))

/-- Strategy `checkBelgianBBAN` (iban.ts lines 433-439). -/
def checkBelgianBBAN (bban : String) : Bool :=
  let stripped := bban.data.filter (fun c => !jsSpaceDot c)
  let checkingPart := jsParseIntL (stripped.take (stripped.length - 2))
  let checksum := jsParseIntL (stripped.drop (stripped.length - 2))
  let remainder :=
    if jsEq (jsMod checkingPart (some 97)) (some 0) then some 97
    else jsMod checkingPart (some 97)
  jsEq remainder checksum

/-- Strategy `checkCzechSlovakBBAN` (iban.ts lines 452-481). -/
def checkCzechSlovakBBAN (bban : String) : Bool :=
  let cs := bban.data
  let weightsA := [10, 5, 8, 4, 2, 1]
  let weightsB := [6, 3, 7, 9, 10, 5, 8, 4, 2, 1]
  let controlA := jsParseIntL (charAtL cs 9)
  let controlB := jsParseIntL (charAtL cs 19)
  let pfx := (cs.drop 4).take 5
  let sfx := (cs.drop 10).take 9
  let rem1 := jsMod (jsWeightedSum pfx weightsA pfx.length) (some 11)
  if !(jsEq controlA
        (if jsEq rem1 (some 0) then some 0
         else if jsEq rem1 (some 1) then some 1
         else jsSub (some 11) rem1)) then false
  else
    let rem2 := jsMod (jsWeightedSum sfx weightsB sfx.length) (some 11)
    jsEq controlB
      (if jsEq rem2 (some 0) then some 0
       else if jsEq rem2 (some 1) then some 1
       else jsSub (some 11) rem2)

/-- Strategy `checkEstonianBBAN` (iban.ts lines 494-504). -/
def checkEstonianBBAN (bban : String) : Bool :=
  let cs := bban.data
  let weights := [7, 1, 3, 7, 1, 3, 7, 1, 3, 7, 1, 3, 7]
  let controlDigit := jsParseIntL (charAtL cs 15)
  let toCheck := (cs.drop 2).take 13
  let remainder := jsMod (jsWeightedSum toCheck weights toCheck.length) (some 10)
  jsEq controlDigit
    (if jsEq remainder (some 0) then some 0 else jsSub (some 10) remainder)

/-- Strategy `checkSpanishBBAN` (iban.ts lines 517-546). -/
def checkSpanishBBAN (bban : String) : Bool :=
  let cs := bban.data
  let weightsBankBranch := [4, 8, 5, 10, 9, 7, 3, 6]
  let weightsAccount := [1, 2, 4, 8, 5, 10, 9, 7, 3, 6]
  let controlBankBranch := jsParseIntL (charAtL cs 8)
  let controlAccount := jsParseIntL (charAtL cs 9)
  let bankBranch := cs.take 8
  let account := (cs.drop 10).take 10
  let rem1 := jsMod (jsWeightedSum bankBranch weightsBankBranch 8) (some 11)
  if !(jsEq controlBankBranch
        (if jsEq rem1 (some 0) then some 0
         else if jsEq rem1 (some 1) then some 1
         else jsSub (some 11) rem1)) then false
  else
    let rem2 := jsMod (jsWeightedSum account weightsAccount 10) (some 11)
    jsEq controlAccount
      (if jsEq rem2 (some 0) then some 0
       else if jsEq rem2 (some 1) then some 1
       else jsSub (some 11) rem2)

/-- The French national letter table (iban.ts lines 563-613): letters are
replaced in place by a digit character; characters with code below 65, and
codes above 90 not named by the switch, are left unchanged. -/
def frenchSub (c : Char) : Char :=
  if 65 ≤ c.toNat then
    match c.toNat with
    | 65 | 74 => '1'
    | 66 | 75 | 83 => '2'
    | 67 | 76 | 84 => '3'
    | 68 | 77 | 85 => '4'
    | 69 | 78 | 86 => '5'
    | 70 | 79 | 87 => '6'
    | 71 | 80 | 88 => '7'
    | 72 | 81 | 89 => '8'
    | 73 | 82 | 90 => '9'
    | _ => c
  else c

/-- Strategy `checkFrenchBBAN` (iban.ts lines 559-616). -/
def checkFrenchBBAN (bban : String) : Option Bool :=
  let stripped := bban.data.filter (fun c => !jsSpaceDot c)
  let normalized := stripped.map frenchSub
  (mod97L normalized).map (fun r => jsEq r (some 0))

/-- Helper `checkMod11` (iban.ts lines 653-664). -/
def checkMod11 (toCheck : List Char) (control : JSNum) : Bool :=
  let nr := toCheck.foldl
    (fun nr c =>
      let nr := jsAdd nr (jsParseIntL [c])
      let nr := if !(jsEq (jsMod nr (some 10)) (some 0)) then jsMod nr (some 10) else nr
      let nr := jsMul nr (some 2)
      jsMod nr (some 11))
    (some 10)
  jsEq control
    (if jsEq (jsSub (some 11) nr) (some 10) then some 0 else jsSub (some 11) nr)

/-- Strategy `checkCroatianBBAN` (iban.ts lines 629-639). -/
def checkCroatianBBAN (bban : String) : Bool :=
  let cs := bban.data
  let controlBankBranch := jsParseIntL (charAtL cs 6)
  let controlAccount := jsParseIntL (charAtL cs 16)
  let bankBranch := cs.take 6
  let account := (cs.drop 7).take 9
  checkMod11 bankBranch controlBankBranch && checkMod11 account controlAccount

/-- The weight vector of the Hungarian strategy. -/
def hunWeights : List Nat := [9, 7, 3, 1, 9, 7, 3, 1, 9, 7, 3, 1, 9, 7, 3]

/-- Strategy `checkHungarianBBAN` (iban.ts lines 677-716). -/
def checkHungarianBBAN (bban : String) : Bool :=
  let cs := bban.data
  let controlDigitBankBranch := jsParseIntL (charAtL cs 7)
  let toCheckBankBranch := cs.take 7
  let remainder :=
    jsMod (jsWeightedSum toCheckBankBranch hunWeights toCheckBankBranch.length) (some 10)
  if !(jsEq controlDigitBankBranch
        (if jsEq remainder (some 0) then some 0 else jsSub (some 10) remainder)) then
    false
  else if List.isSuffixOf "00000000".data cs then
    let toCheckAccount := (cs.drop 8).take 7
    let controlDigitAccount := jsParseIntL (charAtL cs 15)
    let accountRemainder :=
      jsMod (jsWeightedSum toCheckAccount hunWeights toCheckAccount.length) (some 10)
    jsEq controlDigitAccount
      (if jsEq accountRemainder (some 0) then some 0 else jsSub (some 10) accountRemainder)
  else
    let toCheckAccount := (cs.drop 8).take 15
    let controlDigitAccount := jsParseIntL (charAtL cs 23)
    let accountRemainder :=
      jsMod (jsWeightedSum toCheckAccount hunWeights toCheckAccount.length) (some 10)
    jsEq controlDigitAccount
      (if jsEq accountRemainder (some 0) then some 0 else jsSub (some 10) accountRemainder)

/-- The weight vector of the Norwegian strategy. -/
def norWeights : List Nat := [5, 4, 3, 2, 7, 6, 5, 4, 3, 2]

/-- Strategy `checkNorwegianBBAN` (iban.ts lines 729-741). -/
def checkNorwegianBBAN (bban : String) : Bool :=
  let stripped := bban.data.filter (fun c => !jsSpaceDot c)
  let controlDigit := jsParseIntL (charAtL stripped 10)
  let toCheck := stripped.take 10
  let remainder := jsMod (jsWeightedSum toCheck norWeights 10) (some 11)
  jsEq controlDigit
    (if jsEq remainder (some 0) then some 0 else jsSub (some 11) remainder)

/-- Strategy `checkPolishBBAN` (iban.ts lines 754-765). -/
def checkPolishBBAN (bban : String) : Bool :=
  let cs := bban.data
  let weights := [3, 9, 7, 1, 3, 9, 7]
  let controlDigit := jsParseIntL (charAtL cs 7)
  let toCheck := cs.take 7
  let remainder := jsMod (jsWeightedSum toCheck weights 7) (some 10)
  jsEq controlDigit
    (if jsEq remainder (some 0) then some 0 else jsSub (some 10) remainder)

/-- Character-class runs making up a `bban_regexp` of the registry (every
registry pattern is a concatenation of fixed-width `[0-9]`, `[A-Z]` and
`[A-Z0-9]` runs anchored on both sides). -/
inductive CClass
  | digit
  | upper
  | alnum

def cmatch : CClass → Char → Bool
  | .digit, c => isDigitChar c
  | .upper, c => isUpperAZ c
  | .alnum, c => isUpperAZ c || isDigitChar c

/-- Anchored match of a run-concatenation pattern against a whole string. -/
def patMatch : List (CClass × Nat) → List Char → Bool
  | [], cs => cs.isEmpty
  | (cl, n) :: ps, cs =>
      (cs.take n).length == n && (cs.take n).all (cmatch cl) && patMatch ps (cs.drop n)

/-- Tags for the `bban_validation_func` entries of the registry (design note
9.1 of the spec: a closed enum dispatching to the strategy functions). -/
inductive BBANValidator
  | mod97BBAN
  | belgian
  | czechSlovak
  | estonian
  | spanish
  | french
  | croatian
  | hungarian
  | norwegian
  | polish

/-- Dispatch a registry validator tag to its strategy.  The two strategies
that feed `mod97` can diverge, hence `Option Bool`; the eight others always
return a boolean. -/
def runValidator : BBANValidator → List Char → Option Bool
  | .mod97BBAN, cs => checkMod97BBAN (String.mk cs)
  | .belgian, cs => some (checkBelgianBBAN (String.mk cs))
  | .czechSlovak, cs => some (checkCzechSlovakBBAN (String.mk cs))
  | .estonian, cs => some (checkEstonianBBAN (String.mk cs))
  | .spanish, cs => some (checkSpanishBBAN (String.mk cs))
  | .french, cs => checkFrenchBBAN (String.mk cs)
  | .croatian, cs => some (checkCroatianBBAN (String.mk cs))
  | .hungarian, cs => some (checkHungarianBBAN (String.mk cs))
  | .norwegian, cs => some (checkNorwegianBBAN (String.mk cs))
  | .polish, cs => some (checkPolishBBAN (String.mk cs))

/-- Structure `CountrySpec` (iban.ts lines 119-125). -/
structure CountrySpec where
  chars : Option Nat := none
  bban_regexp : Option (List (CClass × Nat)) := none
  bban_validation_func : Option BBANValidator := none
  IBANRegistry : Bool := false
  SEPA : Bool := false

/-- Registry `countrySpecs` (iban.ts lines 134-404), keyed by two-letter country
code; `none` for absent keys. -/
def countrySpecs : String → Option CountrySpec
  | "AD" => some { chars := some 24, bban_regexp := some [(.digit, 8), (.alnum, 12)], IBANRegistry := true, SEPA := true }
  | "AE" => some { chars := some 23, bban_regexp := some [(.digit, 3), (.digit, 16)], IBANRegistry := true }
  | "AL" => some { chars := some 28, bban_regexp := some [(.digit, 8), (.alnum, 16)], IBANRegistry := true }
  | "AT" => some { chars := some 20, bban_regexp := some [(.digit, 16)], IBANRegistry := true, SEPA := true }
  | "AZ" => some { chars := some 28, bban_regexp := some [(.upper, 4), (.alnum, 20)], IBANRegistry := true }
  | "BA" => some { chars := some 20, bban_regexp := some [(.digit, 16)], bban_validation_func := some .mod97BBAN, IBANRegistry := true }
  | "BE" => some { chars := some 16, bban_regexp := some [(.digit, 12)], bban_validation_func := some .belgian, IBANRegistry := true, SEPA := true }
  | "BG" => some { chars := some 22, bban_regexp := some [(.upper, 4), (.digit, 6), (.alnum, 8)], IBANRegistry := true, SEPA := true }
  | "BH" => some { chars := some 22, bban_regexp := some [(.upper, 4), (.alnum, 14)], IBANRegistry := true }
  | "BR" => some { chars := some 29, bban_regexp := some [(.digit, 23), (.upper, 1), (.alnum, 1)], IBANRegistry := true }
  | "BY" => some { chars := some 28, bban_regexp := some [(.upper, 4), (.digit, 4), (.alnum, 16)], IBANRegistry := true }
  | "CH" => some { chars := some 21, bban_regexp := some [(.digit, 5), (.alnum, 12)], IBANRegistry := true, SEPA := true }
  | "CR" => some { chars := some 22, bban_regexp := some [(.digit, 18)], IBANRegistry := true }
  | "CY" => some { chars := some 28, bban_regexp := some [(.digit, 8), (.alnum, 16)], IBANRegistry := true, SEPA := true }
  | "CZ" => some { chars := some 24, bban_regexp := some [(.digit, 20)], bban_validation_func := some .czechSlovak, IBANRegistry := true, SEPA := true }
  | "DE" => some { chars := some 22, bban_regexp := some [(.digit, 18)], IBANRegistry := true, SEPA := true }
  | "DK" => some { chars := some 18, bban_regexp := some [(.digit, 14)], IBANRegistry := true, SEPA := true }
  | "DO" => some { chars := some 28, bban_regexp := some [(.upper, 4), (.digit, 20)], IBANRegistry := true }
  | "EE" => some { chars := some 20, bban_regexp := some [(.digit, 16)], bban_validation_func := some .estonian, IBANRegistry := true, SEPA := true }
  | "EG" => some { chars := some 29, bban_regexp := some [(.digit, 25)], IBANRegistry := true }
  | "ES" => some { chars := some 24, bban_regexp := some [(.digit, 20)], bban_validation_func := some .spanish, IBANRegistry := true, SEPA := true }
  | "FI" => some { chars := some 18, bban_regexp := some [(.digit, 14)], IBANRegistry := true, SEPA := true }
  | "FO" => some { chars := some 18, bban_regexp := some [(.digit, 14)], IBANRegistry := true }
  | "FR" => some { chars := some 27, bban_regexp := some [(.digit, 10), (.alnum, 11), (.digit, 2)], bban_validation_func := some .french, IBANRegistry := true, SEPA := true }
  | "GB" => some { chars := some 22, bban_regexp := some [(.upper, 4), (.digit, 14)], IBANRegistry := true, SEPA := true }
  | "GE" => some { chars := some 22, bban_regexp := some [(.alnum, 2), (.digit, 16)], IBANRegistry := true }
  | "GI" => some { chars := some 23, bban_regexp := some [(.upper, 4), (.alnum, 15)], IBANRegistry := true, SEPA := true }
  | "GL" => some { chars := some 18, bban_regexp := some [(.digit, 14)], IBANRegistry := true }
  | "GR" => some { chars := some 27, bban_regexp := some [(.digit, 7), (.alnum, 16)], IBANRegistry := true, SEPA := true }
  | "GT" => some { chars := some 28, bban_regexp := some [(.alnum, 24)], IBANRegistry := true }
  | "HR" => some { chars := some 21, bban_regexp := some [(.digit, 17)], bban_validation_func := some .croatian, IBANRegistry := true, SEPA := true }
  | "HU" => some { chars := some 28, bban_regexp := some [(.digit, 24)], bban_validation_func := some .hungarian, IBANRegistry := true, SEPA := true }
  | "IE" => some { chars := some 22, bban_regexp := some [(.alnum, 4), (.digit, 14)], IBANRegistry := true, SEPA := true }
  | "IL" => some { chars := some 23, bban_regexp := some [(.digit, 19)], IBANRegistry := true }
  | "IS" => some { chars := some 26, bban_regexp := some [(.digit, 22)], IBANRegistry := true, SEPA := true }
  | "IT" => some { chars := some 27, bban_regexp := some [(.upper, 1), (.digit, 10), (.alnum, 12)], IBANRegistry := true, SEPA := true }
  | "JO" => some { chars := some 30, bban_regexp := some [(.upper, 4), (.digit, 4), (.alnum, 18)], IBANRegistry := true }
  | "KW" => some { chars := some 30, bban_regexp := some [(.upper, 4), (.alnum, 22)], IBANRegistry := true }
  | "KZ" => some { chars := some 20, bban_regexp := some [(.digit, 3), (.alnum, 13)], IBANRegistry := true }
  | "LB" => some { chars := some 28, bban_regexp := some [(.digit, 4), (.alnum, 20)], IBANRegistry := true }
  | "LC" => some { chars := some 32, bban_regexp := some [(.upper, 4), (.alnum, 24)], IBANRegistry := true }
  | "LI" => some { chars := some 21, bban_regexp := some [(.digit, 5), (.alnum, 12)], IBANRegistry := true, SEPA := true }
  | "LT" => some { chars := some 20, bban_regexp := some [(.digit, 16)], IBANRegistry := true, SEPA := true }
  | "LU" => some { chars := some 20, bban_regexp := some [(.digit, 3), (.alnum, 13)], IBANRegistry := true, SEPA := true }
  | "LV" => some { chars := some 21, bban_regexp := some [(.upper, 4), (.alnum, 13)], IBANRegistry := true, SEPA := true }
  | "MC" => some { chars := some 27, bban_regexp := some [(.digit, 10), (.alnum, 11), (.digit, 2)], bban_validation_func := some .french, IBANRegistry := true, SEPA := true }
  | "MD" => some { chars := some 24, bban_regexp := some [(.alnum, 2), (.alnum, 18)], IBANRegistry := true }
  | "ME" => some { chars := some 22, bban_regexp := some [(.digit, 18)], bban_validation_func := some .mod97BBAN, IBANRegistry := true }
  | "MK" => some { chars := some 19, bban_regexp := some [(.digit, 3), (.alnum, 10), (.digit, 2)], bban_validation_func := some .mod97BBAN, IBANRegistry := true }
  | "MR" => some { chars := some 27, bban_regexp := some [(.digit, 23)], IBANRegistry := true }
  | "MT" => some { chars := some 31, bban_regexp := some [(.upper, 4), (.digit, 5), (.alnum, 18)], IBANRegistry := true, SEPA := true }
  | "MU" => some { chars := some 30, bban_regexp := some [(.upper, 4), (.digit, 19), (.upper, 3)], IBANRegistry := true }
  | "NL" => some { chars := some 18, bban_regexp := some [(.upper, 4), (.digit, 10)], IBANRegistry := true, SEPA := true }
  | "NO" => some { chars := some 15, bban_regexp := some [(.digit, 11)], bban_validation_func := some .norwegian, IBANRegistry := true, SEPA := true }
  | "PK" => some { chars := some 24, bban_regexp := some [(.alnum, 4), (.digit, 16)], IBANRegistry := true }
  | "PL" => some { chars := some 28, bban_regexp := some [(.digit, 24)], bban_validation_func := some .polish, IBANRegistry := true, SEPA := true }
  | "PS" => some { chars := some 29, bban_regexp := some [(.alnum, 4), (.digit, 21)], IBANRegistry := true }
  | "PT" => some { chars := some 25, bban_regexp := some [(.digit, 21)], bban_validation_func := some .mod97BBAN, IBANRegistry := true, SEPA := true }
  | "QA" => some { chars := some 29, bban_regexp := some [(.upper, 4), (.alnum, 21)], IBANRegistry := true }
  | "RO" => some { chars := some 24, bban_regexp := some [(.upper, 4), (.alnum, 16)], IBANRegistry := true, SEPA := true }
  | "RS" => some { chars := some 22, bban_regexp := some [(.digit, 18)], bban_validation_func := some .mod97BBAN, IBANRegistry := true }
  | "SA" => some { chars := some 24, bban_regexp := some [(.digit, 2), (.alnum, 18)], IBANRegistry := true }
  | "SE" => some { chars := some 24, bban_regexp := some [(.digit, 20)], IBANRegistry := true, SEPA := true }
  | "SI" => some { chars := some 19, bban_regexp := some [(.digit, 15)], bban_validation_func := some .mod97BBAN, IBANRegistry := true, SEPA := true }
  | "SK" => some { chars := some 24, bban_regexp := some [(.digit, 20)], bban_validation_func := some .czechSlovak, IBANRegistry := true, SEPA := true }
  | "SM" => some { chars := some 27, bban_regexp := some [(.upper, 1), (.digit, 10), (.alnum, 12)], IBANRegistry := true, SEPA := true }
  | "TN" => some { chars := some 24, bban_regexp := some [(.digit, 20)], IBANRegistry := true }
  | "TR" => some { chars := some 26, bban_regexp := some [(.digit, 5), (.alnum, 17)], IBANRegistry := true }
  | "UA" => some { chars := some 29, bban_regexp := some [(.digit, 6), (.alnum, 19)], IBANRegistry := true }
  | "VG" => some { chars := some 24, bban_regexp := some [(.alnum, 4), (.digit, 16)], IBANRegistry := true }
  | "XK" => some { chars := some 20, bban_regexp := some [(.digit, 16)], IBANRegistry := true }
  | _ => none

/-- The normalization of iban.ts line 21:
`value.replace(/[\s-]/g, "").toUpperCase()` (ASCII upper-casing). -/
def normalizeIban (value : String) : List Char :=
  (value.data.filter (fun c => !(jsWhitespaceChar c || c == '-'))).map Char.toUpper

/-- The shape regex of iban.ts line 25: `^[A-Z]{2}[0-9]{2}[A-Z0-9]+$`. -/
def shapeOK : List Char → Bool
  | c0 :: c1 :: c2 :: c3 :: rest =>
      isUpperAZ c0 && isUpperAZ c1 && isDigitChar c2 && isDigitChar c3 &&
      !rest.isEmpty && rest.all (fun c => isUpperAZ c || isDigitChar c)
  | _ => false

/-- The check-digit regex of iban.ts line 37: `^[0-9]{2}$` on `iban.slice(2, 4)`. -/
def checkDigitsOK (cs : List Char) : Bool :=
  match (cs.drop 2).take 2 with
  | [a, b] => isDigitChar a && isDigitChar b
  | _ => false

/-- The letter substitution of `isValidIBANChecksum` (iban.ts lines 75-81):
`code >= 65 ? (code - 55).toString() : char`. -/
def ibanCharSub (c : Char) : List Char :=
  if 65 ≤ c.toNat then (Nat.repr (c.toNat - 55)).data else [c]

/-- Function `isValidIBANChecksum` (iban.ts lines 70-85). -/
def isValidIBANChecksum (iban : List Char) : Option Bool :=
  let rearranged := iban.drop 4 ++ iban.take 4
  let numericString := (rearranged.map ibanCharSub).flatten
  (mod97L numericString).map (fun r => jsEq r (some 1))

/-- Stages 1-7 of `isValidIBAN` (iban.ts lines 18-45): everything before the
universal MOD-97 checksum, in source order.  `some false` is an early
`return false`; `some true` means all seven stages passed; `none` models a
diverging national strategy. -/
def stages17 (value : String) : Option Bool :=
  if value = "" then some false
  else if (normalizeIban value).length < 15 ∨ 34 < (normalizeIban value).length then some false
  else if ¬shapeOK (normalizeIban value) then some false
  else
    match countrySpecs (String.mk ((normalizeIban value).take 2)) with
    | none => some false
    | some spec =>
      match spec.bban_regexp, spec.chars with
      | some pat, some n =>
        if n ≠ (normalizeIban value).length then some false
        else if ¬checkDigitsOK (normalizeIban value) then some false
        else if ¬patMatch pat ((normalizeIban value).drop 4) then some false
        else
          match spec.bban_validation_func with
          | none => some true
          | some vf =>
            match runValidator vf ((normalizeIban value).drop 4) with
            | none => none
            | some b => some b
      | _, _ => some false

/-- Function `isValidIBAN` on an actual string (iban.ts lines 16-54): stages 1-7 and
then the universal checksum.  (Nothing on this path can raise, so the
defensive `try`/`catch` of the source has no effect to model.) -/
def isValidIBANStr (value : String) : Option Bool :=
  match stages17 value with
  | some true => isValidIBANChecksum (normalizeIban value)
  | r => r

/-- The argument of `isValidIBAN`: a JS string, or any other JS value
(including `null` and `undefined`), which the guard of line 18 rejects. -/
inductive JSInput
  | jstr (s : String)
  | nonString

/-- Function `isValidIBAN` (iban.ts lines 16-54). -/
def isValidIBAN : JSInput → Option Bool
  | .jstr s => isValidIBANStr s
  | .nonString => some false

/-! Claim-side definitions: restatements, in the words of the spec, of quantities
the claims compare against the embedded code. -/

/-- Numeric value of the digit character at position `i` (claims C5, C9, C10
speak about "the control digit at position i" of an all-digit BBAN). -/
def digitAt (cs : List Char) (i : Nat) : Nat :=
  digitToNat (cs.getD i ' ')

/-- Weighted digit sum used by the claims: position `i` of `cs` (for
`i < count`) times weight `ws[i]`, summed. -/
def natWSum (cs : List Char) (ws : List Nat) (count : Nat) : Nat :=
  (List.range count).foldl (fun acc i => acc + digitAt cs i * ws.getD i 0) 0

/-- The modulo-10 control-digit rule `remainder == 0 ? 0 : 10 - remainder`. -/
def ctlMod10 (sum : Nat) : Nat :=
  if sum % 10 = 0 then 0 else 10 - sum % 10

/-- The three-way modulo-11 control-digit rule of claim C10:
remainder 0 maps to 0, remainder 1 maps to 1, otherwise 11 - remainder. -/
def ctlMod11 (sum : Nat) : Nat :=
  if sum % 11 = 0 then 0 else if sum % 11 = 1 then 1 else 11 - sum % 11

/-- The claim C4 description of the universal checksum substitution: every
letter A..Z is replaced by its ISO numeric equivalent (A=10 ... Z=35), other
characters stay. -/
def isoLetterSub (c : Char) : List Char :=
  if isUpperAZ c then (Nat.repr (c.toNat - 65 + 10)).data else [c]

/-- The claim C4 checksum input: the 4-character prefix moved to the end, then
the ISO letter substitution applied throughout. -/
def isoChecksumInput (cs : List Char) : List Char :=
  ((cs.drop 4 ++ cs.take 4).map isoLetterSub).flatten

/-- The claim C8 transformation: the input with all spaces and hyphens
removed. -/
def stripSpacesHyphens (s : String) : String :=
  String.mk (s.data.filter (fun c => !(c == ' ' || c == '-')))

/-! Helper lemmas. -/

theorem isDigitChar_toNat {c : Char} (h : isDigitChar c = true) :
    48 ≤ c.toNat ∧ c.toNat ≤ 57 := by
  simpa [isDigitChar, Bool.and_eq_true, decide_eq_true_eq] using h

theorem jsWhitespaceChar_eq_false_of_digit {c : Char} (h : isDigitChar c = true) :
    jsWhitespaceChar c = false := by
  obtain ⟨h1, h2⟩ := isDigitChar_toNat h
  simp only [jsWhitespaceChar, jsWhitespaceCodes]
  simp only [decide_eq_false_iff_not, List.mem_cons, List.mem_singleton,
    List.not_mem_nil, or_false]
  omega

theorem ne_dash_of_digit {c : Char} (h : isDigitChar c = true) : c ≠ '-' := by
  obtain ⟨h1, _⟩ := isDigitChar_toNat h
  intro hc
  subst hc
  simp at h1

theorem ne_plus_of_digit {c : Char} (h : isDigitChar c = true) : c ≠ '+' := by
  obtain ⟨h1, _⟩ := isDigitChar_toNat h
  intro hc
  subst hc
  simp at h1

theorem digitToNat_le_nine {c : Char} (h : isDigitChar c = true) :
    digitToNat c ≤ 9 := by
  obtain ⟨h1, h2⟩ := isDigitChar_toNat h
  simp only [digitToNat]
  omega

theorem takeWhile_of_all {p : Char → Bool} :
    ∀ {l : List Char}, (∀ c ∈ l, p c = true) → l.takeWhile p = l := by
  intro l
  induction l with
  | nil => intro _; rfl
  | cons c t ih =>
      intro h
      rw [List.takeWhile_cons, h c (by simp)]
      simp [ih fun x hx => h x (by simp [hx])]

theorem foldl_digits_acc (cs : List Char) :
    ∀ acc : Nat,
      cs.foldl (fun a c => a * 10 + digitToNat c) acc
        = acc * 10 ^ cs.length + digitsToNat cs := by
  induction cs with
  | nil => intro acc; simp [digitsToNat]
  | cons c t ih =>
      intro acc
      simp only [List.foldl_cons, List.length_cons, digitsToNat]
      rw [ih (acc * 10 + digitToNat c), ih (0 * 10 + digitToNat c)]
      ring

theorem digitsToNat_append (a b : List Char) :
    digitsToNat (a ++ b) = digitsToNat a * 10 ^ b.length + digitsToNat b := by
  simp only [digitsToNat, List.foldl_append]
  exact foldl_digits_acc b _

theorem digitsToNat_single (c : Char) : digitsToNat [c] = digitToNat c := by
  simp [digitsToNat]

theorem jsParseIntL_digits :
    ∀ {cs : List Char}, cs ≠ [] → (∀ c ∈ cs, isDigitChar c = true) →
      jsParseIntL cs = some ((digitsToNat cs : Nat) : Int) := by
  intro cs h0 h1
  match cs with
  | c :: t =>
    have hc : isDigitChar c = true := h1 c (by simp)
    have hws : jsWhitespaceChar c = false := jsWhitespaceChar_eq_false_of_digit hc
    have hdrop : (c :: t).dropWhile jsWhitespaceChar = c :: t := by
      rw [List.dropWhile_cons, hws]
      simp
    unfold jsParseIntL
    rw [hdrop]
    dsimp only
    rw [if_neg (ne_dash_of_digit hc), if_neg (ne_plus_of_digit hc)]
    have htake : (c :: t).takeWhile isDigitChar = c :: t := takeWhile_of_all h1
    simp [htake]

theorem reprFacts : ∀ n, n < 97 →
    (Nat.repr n).data ≠ [] ∧ ((Nat.repr n).data.all isDigitChar = true) ∧
      (Nat.repr n).data.length ≤ 2 ∧ digitsToNat (Nat.repr n).data = n := by
  decide

theorem tmod_coe (a b : Nat) :
    Int.tmod (a : Int) (b : Int) = ((a % b : Nat) : Int) := rfl

theorem drop_take_length (cs : List Char) :
    cs.drop (cs.take 9).length = cs.drop 9 := by
  rw [List.length_take]
  rcases Nat.le_total 9 cs.length with h | h
  · rw [Nat.min_eq_left h]
  · rw [Nat.min_eq_right h, List.drop_length, List.drop_eq_nil_of_le h]

theorem mod97Iter_digits :
    ∀ (fuel : Nat) (cs : List Char), cs ≠ [] → (∀ c ∈ cs, isDigitChar c = true) →
      cs.length ≤ fuel →
      mod97Iter fuel cs = some (some ((digitsToNat cs % 97 : Nat) : Int)) := by
  intro fuel
  induction fuel with
  | zero =>
      intro cs h0 _ hle
      cases cs with
      | nil => exact absurd rfl h0
      | cons c t => simp at hle
  | succ f ih =>
      intro cs h0 h1 hle
      by_cases hlen : 2 < cs.length
      · have hchunkne : cs.take 9 ≠ [] := by
          intro h
          have hlen0 := congrArg List.length h
          simp only [List.length_take, List.length_nil] at hlen0
          omega
        have hchunkdig : ∀ c ∈ cs.take 9, isDigitChar c = true :=
          fun c hc => h1 c (List.take_subset _ _ hc)
        have hrepr := reprFacts (digitsToNat (cs.take 9) % 97)
          (Nat.mod_lt _ (by norm_num))
        obtain ⟨hrne, hrdig, hrlen, hrval⟩ := hrepr
        unfold mod97Iter
        rw [if_pos hlen]
        dsimp only
        rw [jsParseIntL_digits hchunkne hchunkdig]
        dsimp only
        rw [show (97 : Int) = ((97 : Nat) : Int) from rfl, tmod_coe]
        have hrw : jsIntRepr ((digitsToNat (cs.take 9) % 97 : Nat) : Int)
            = Nat.repr (digitsToNat (cs.take 9) % 97) := rfl
        rw [hrw, drop_take_length]
        have hnw0 : (Nat.repr (digitsToNat (cs.take 9) % 97)).data ++ cs.drop 9 ≠ [] := by
          intro h
          exact hrne (List.append_eq_nil.mp h).1
        have hnwdig : ∀ c ∈ (Nat.repr (digitsToNat (cs.take 9) % 97)).data ++ cs.drop 9,
            isDigitChar c = true := by
          intro c hc
          rcases List.mem_append.mp hc with hc | hc
          · exact List.all_eq_true.mp hrdig c hc
          · exact h1 c (List.drop_subset _ _ hc)
        have hnwlen : ((Nat.repr (digitsToNat (cs.take 9) % 97)).data ++ cs.drop 9).length ≤ f := by
          rw [List.length_append, List.length_drop]
          omega
        rw [ih _ hnw0 hnwdig hnwlen]
        have hval : digitsToNat ((Nat.repr (digitsToNat (cs.take 9) % 97)).data ++ cs.drop 9) % 97
            = digitsToNat cs % 97 := by
          conv_rhs => rw [← List.take_append_drop 9 cs]
          rw [digitsToNat_append, digitsToNat_append, hrval]
          exact ((Nat.mod_modEq (digitsToNat (cs.take 9)) 97).mul_right _).add_right _
        rw [hval]
      · unfold mod97Iter
        rw [if_neg hlen]
        rw [jsParseIntL_digits h0 h1]
        dsimp only [jsMod]
        rw [if_neg (by norm_num : ¬(97 : Int) = 0)]
        rw [show (97 : Int) = ((97 : Nat) : Int) from rfl, tmod_coe]

theorem mod97L_digits {cs : List Char} (h0 : cs ≠ [])
    (h1 : ∀ c ∈ cs, isDigitChar c = true) :
    mod97L cs = some (some ((digitsToNat cs % 97 : Nat) : Int)) :=
  mod97Iter_digits _ _ h0 h1 (Nat.le_succ _)

theorem jsParseIntL_head_bad {c : Char} {t : List Char}
    (hws : jsWhitespaceChar c = false) (hd : isDigitChar c = false)
    (hm : c ≠ '-') (hp : c ≠ '+') : jsParseIntL (c :: t) = none := by
  have hdrop : (c :: t).dropWhile jsWhitespaceChar = c :: t := by
    rw [List.dropWhile_cons, hws]
    simp
  have htake : (c :: t).takeWhile isDigitChar = [] := by
    rw [List.takeWhile_cons, hd]
    simp
  unfold jsParseIntL
  rw [hdrop]
  dsimp only
  rw [if_neg hm, if_neg hp]
  simp [htake]

/-- Claim C2: for every non-empty string of decimal digits (any length), the
chunked `mod97` reduction terminates and returns the value of the digit
string modulo 97 (the direct big-integer remainder). -/
theorem mod97_digit_strings (s : String) (h0 : s ≠ "")
    (h1 : s.data.all isDigitChar = true) :
    mod97 s = some (some ((digitsToNat s.data % 97 : Nat) : Int)) := by
  have h0l : s.data ≠ [] := fun hh => h0 (String.ext (hh.trans rfl))
  exact mod97Iter_digits _ _ h0l (fun c hc => List.all_eq_true.mp h1 c hc)
    (Nat.le_succ _)

theorem mod97_digit_strings_witness :
    ("123456789012345678901234567890" ≠ "") ∧
      ("123456789012345678901234567890".data.all isDigitChar = true) ∧
      mod97 "123456789012345678901234567890"
        = some (some ((digitsToNat "123456789012345678901234567890".data % 97 : Nat) : Int)) :=
  ⟨by decide, by decide,
    mod97_digit_strings "123456789012345678901234567890" (by decide) (by decide)⟩

/-- Claim C3 counterexample: "123A56789012" contains the non-digit 'A'
(inside the first nine-character chunk), yet `mod97` returns the ordinary
numeric remainder 16 instead of signalling NaN — `parseInt` silently drops
everything from the first non-digit of the chunk on. -/
theorem mod97_nondigit_counterexample :
    ¬(∀ c ∈ "123A56789012".data, isDigitChar c = true) ∧
      mod97 "123A56789012" = some (some 16) := by
  constructor
  · decide
  · decide

/-- Claim C3 (amended): function `mod97` signals NaN only when a processed chunk does
not *begin* with usable numeric text; in particular, whenever the first
character of the input is neither a digit, a sign, nor whitespace, the first
`parseInt` yields NaN and `mod97` returns the NaN failure value.  (A
non-digit occurring after leading digits of a chunk is instead silently
discarded, as the counterexample shows.) -/
theorem mod97_nan_of_bad_head (s : String) (c : Char) (t : List Char)
    (hcs : s.data = c :: t)
    (hws : jsWhitespaceChar c = false) (hd : isDigitChar c = false)
    (hm : c ≠ '-') (hp : c ≠ '+') :
    mod97 s = some none := by
  unfold mod97 mod97L
  rw [hcs]
  by_cases hlen : 2 < (c :: t).length
  · unfold mod97Iter
    rw [if_pos hlen]
    dsimp only
    have htk : (c :: t).take 9 = c :: t.take 8 := rfl
    rw [htk, jsParseIntL_head_bad hws hd hm hp]
  · unfold mod97Iter
    rw [if_neg hlen, jsParseIntL_head_bad hws hd hm hp]
    rfl

theorem mod97_nan_of_bad_head_witness : mod97 "XYZ123" = some none :=
  mod97_nan_of_bad_head "XYZ123" 'X' "YZ123".data (by decide) (by decide)
    (by decide) (by decide) (by decide)

theorem charAtL_eq {cs : List Char} {i : Nat} (h : i < cs.length) :
    charAtL cs i = [cs.getD i ' '] := by
  unfold charAtL
  rw [List.drop_eq_getElem_cons h, List.getD_eq_getElem _ _ h]
  rfl

theorem jsParseIntL_single_digit {c : Char} (h : isDigitChar c = true) :
    jsParseIntL [c] = some ((digitToNat c : Nat) : Int) := by
  rw [jsParseIntL_digits (by simp) (by simpa using h), digitsToNat_single]

theorem getD_digit_of_all {cs : List Char} (h : cs.all isDigitChar = true)
    {i : Nat} (hi : i < cs.length) : isDigitChar (cs.getD i ' ') = true := by
  rw [List.getD_eq_getElem _ _ hi]
  exact List.all_eq_true.mp h _ (List.getElem_mem hi)

theorem all_take {cs : List Char} (h : cs.all isDigitChar = true) (n : Nat) :
    (cs.take n).all isDigitChar = true := by
  rw [List.all_eq_true] at h ⊢
  exact fun c hc => h c (List.take_subset _ _ hc)

theorem all_drop {cs : List Char} (h : cs.all isDigitChar = true) (n : Nat) :
    (cs.drop n).all isDigitChar = true := by
  rw [List.all_eq_true] at h ⊢
  exact fun c hc => h c (List.drop_subset _ _ hc)

theorem jsWeightedSum_succ (cs : List Char) (ws : List Nat) (n : Nat) :
    jsWeightedSum cs ws (n + 1)
      = jsAdd (jsWeightedSum cs ws n)
          (jsMul (jsParseIntL (charAtL cs n)) (jsIdx ws n)) := by
  unfold jsWeightedSum
  rw [List.range_succ, List.foldl_append]
  rfl

theorem natWSum_succ (cs : List Char) (ws : List Nat) (n : Nat) :
    natWSum cs ws (n + 1) = natWSum cs ws n + digitAt cs n * ws.getD n 0 := by
  unfold natWSum
  rw [List.range_succ, List.foldl_append]
  rfl

theorem jsIdx_lt {ws : List Nat} {n : Nat} (h : n < ws.length) :
    jsIdx ws n = some ((ws.getD n 0 : Nat) : Int) := by
  unfold jsIdx
  rw [List.get?_eq_getElem?, List.getElem?_eq_getElem h, List.getD_eq_getElem _ _ h]

theorem jsWeightedSum_digits :
    ∀ (count : Nat) (cs : List Char) (ws : List Nat),
      count ≤ cs.length → count ≤ ws.length → cs.all isDigitChar = true →
      jsWeightedSum cs ws count = some ((natWSum cs ws count : Nat) : Int) := by
  intro count
  induction count with
  | zero => intro cs ws _ _ _; rfl
  | succ n ih =>
      intro cs ws h1 h2 h3
      rw [jsWeightedSum_succ, natWSum_succ,
        ih cs ws (by omega) (by omega) h3,
        charAtL_eq (by omega),
        jsParseIntL_single_digit (getD_digit_of_all h3 (by omega)),
        jsIdx_lt (by omega)]
      unfold jsAdd jsMul digitAt
      push_cast
      rfl

theorem jsEq_some_some (x y : Int) : jsEq (some x) (some y) = decide (x = y) := by
  unfold jsEq
  by_cases h : x = y
  · simp [h]
  · simp [beq_iff_eq, h]

theorem jsEq_coe_nat (a b : Nat) :
    jsEq (some (a : Int)) (some (b : Int)) = decide (a = b) := by
  rw [jsEq_some_some]
  simp

theorem jsMod_coe (a b : Nat) (hb : 0 < b) :
    jsMod (some (a : Int)) (some (b : Int)) = some ((a % b : Nat) : Int) := by
  unfold jsMod
  dsimp only
  rw [if_neg (by exact_mod_cast Nat.pos_iff_ne_zero.mp hb), tmod_coe]

theorem jsSub_coe (a b : Nat) (h : b ≤ a) :
    jsSub (some (a : Int)) (some (b : Int)) = some ((a - b : Nat) : Int) := by
  unfold jsSub
  rw [Nat.cast_sub h]

theorem filter_spaceDot_digits {cs : List Char}
    (h : cs.all isDigitChar = true) :
    cs.filter (fun c => !jsSpaceDot c) = cs := by
  apply List.filter_eq_self.mpr
  intro c hc
  have hd := List.all_eq_true.mp h c hc
  have hws := jsWhitespaceChar_eq_false_of_digit hd
  have hne : (c == '.') = false := by
    apply beq_eq_false_iff_ne.mpr
    intro hh
    subst hh
    exact absurd (isDigitChar_toNat hd).1 (by decide)
  simp [jsSpaceDot, hws, hne]

theorem jsCtl10 (d S : Nat) :
    jsEq (some (d : Int))
        (if jsEq (some ((S % 10 : Nat) : Int)) (some 0) then some 0
         else jsSub (some ((10 : Nat) : Int)) (some ((S % 10 : Nat) : Int)))
      = decide (d = ctlMod10 S) := by
  by_cases h : S % 10 = 0
  · rw [if_pos (by rw [jsEq_some_some]; simp [h])]
    rw [show (some 0 : JSNum) = some (((0 : Nat) : Int)) by norm_num, jsEq_coe_nat]
    simp [ctlMod10, h]
  · rw [if_neg (by rw [jsEq_some_some]; simp only [decide_eq_true_eq, Nat.cast_eq_zero]; exact h)]
    rw [jsSub_coe 10 (S % 10) (by omega), jsEq_coe_nat]
    simp [ctlMod10, h]

theorem jsCtl11two (d S : Nat) :
    jsEq (some (d : Int))
        (if jsEq (some ((S % 11 : Nat) : Int)) (some 0) then some 0
         else jsSub (some ((11 : Nat) : Int)) (some ((S % 11 : Nat) : Int)))
      = decide (d = (if S % 11 = 0 then 0 else 11 - S % 11)) := by
  by_cases h : S % 11 = 0
  · rw [if_pos (by rw [jsEq_some_some]; simp [h])]
    rw [show (some 0 : JSNum) = some (((0 : Nat) : Int)) by norm_num, jsEq_coe_nat]
    simp [h]
  · rw [if_neg (by rw [jsEq_some_some]; simp only [decide_eq_true_eq, Nat.cast_eq_zero]; exact h)]
    rw [jsSub_coe 11 (S % 11) (by omega), jsEq_coe_nat]
    simp [h]

theorem jsCtl11three (d S : Nat) :
    jsEq (some (d : Int))
        (if jsEq (some ((S % 11 : Nat) : Int)) (some 0) then some 0
         else if jsEq (some ((S % 11 : Nat) : Int)) (some 1) then some 1
         else jsSub (some ((11 : Nat) : Int)) (some ((S % 11 : Nat) : Int)))
      = decide (d = ctlMod11 S) := by
  by_cases h0 : S % 11 = 0
  · rw [if_pos (by rw [jsEq_some_some]; simp [h0])]
    rw [show (some 0 : JSNum) = some (((0 : Nat) : Int)) by norm_num, jsEq_coe_nat]
    simp [ctlMod11, h0]
  · rw [if_neg (by rw [jsEq_some_some]; simp only [decide_eq_true_eq, Nat.cast_eq_zero]; exact h0)]
    by_cases h1 : S % 11 = 1
    · rw [if_pos (by rw [jsEq_some_some]; simp [h1])]
      rw [show (some 1 : JSNum) = some (((1 : Nat) : Int)) by norm_num, jsEq_coe_nat]
      simp [ctlMod11, h0, h1]
    · rw [if_neg (by rw [jsEq_some_some]; simp only [decide_eq_true_eq, Nat.cast_eq_one]; exact h1)]
      rw [jsSub_coe 11 (S % 11) (by omega), jsEq_coe_nat]
      simp [ctlMod11, h0, h1]

theorem checkNorwegianBBAN_eq (bban : String) (hlen : bban.data.length = 11)
    (hdig : bban.data.all isDigitChar = true) :
    checkNorwegianBBAN bban
      = decide (digitAt bban.data 10
          = (if natWSum (bban.data.take 10) norWeights 10 % 11 = 0 then 0
             else 11 - natWSum (bban.data.take 10) norWeights 10 % 11)) := by
  unfold checkNorwegianBBAN
  dsimp only
  rw [filter_spaceDot_digits hdig]
  rw [charAtL_eq (by omega)]
  rw [jsParseIntL_single_digit (getD_digit_of_all hdig (by omega))]
  rw [jsWeightedSum_digits 10 _ _ (by rw [List.length_take]; omega) (by decide)
    (all_take hdig 10)]
  rw [show (some 11 : JSNum) = some (((11 : Nat) : Int)) by norm_num]
  rw [jsMod_coe _ _ (by norm_num)]
  exact jsCtl11two _ _

theorem stages17_facts {v : String} (h : stages17 v = some true) :
    shapeOK (normalizeIban v) = true ∧
      (15 ≤ (normalizeIban v).length ∧ (normalizeIban v).length ≤ 34) ∧
      ∀ spec, countrySpecs (String.mk ((normalizeIban v).take 2)) = some spec →
        ((∀ pat, spec.bban_regexp = some pat →
            patMatch pat ((normalizeIban v).drop 4) = true) ∧
         (∀ vf, spec.bban_validation_func = some vf →
            runValidator vf ((normalizeIban v).drop 4) = some true)) := by
  unfold stages17 at h
  split at h
  · exact absurd h (by simp)
  next hempty =>
  split at h
  · exact absurd h (by simp)
  next hlen =>
  split at h
  · exact absurd h (by simp)
  next hshape =>
  split at h
  · exact absurd h (by simp)
  next spec hspec =>
  split at h
  next pat n hpat hn =>
    split at h
    · exact absurd h (by simp)
    next hlen2 =>
    split at h
    · exact absurd h (by simp)
    next hcd =>
    split at h
    · exact absurd h (by simp)
    next hpm =>
    refine ⟨not_not.mp hshape, ⟨by omega, by omega⟩, ?_⟩
    intro spec2 hspec2
    rw [hspec] at hspec2
    cases Option.some_inj.mp hspec2
    constructor
    · intro pat2 hpat2
      rw [hpat] at hpat2
      cases Option.some_inj.mp hpat2
      exact not_not.mp hpm
    · intro vf hvf
      split at h
      next hnone =>
        rw [hnone] at hvf
        cases hvf
      next vf2 hvf2 =>
        rw [hvf2] at hvf
        cases Option.some_inj.mp hvf
        split at h
        next hrv => exact absurd h (by simp)
        next b hrv =>
          cases Option.some_inj.mp h
          exact hrv
  next hfall =>
    exact absurd h (by simp)

theorem isValidIBANStr_true_stages {v : String} (h : isValidIBANStr v = some true) :
    stages17 v = some true := by
  unfold isValidIBANStr at h
  rcases hst : stages17 v with _ | b
  · rw [hst] at h
    simp at h
  · cases b
    · rw [hst] at h
      simp at h
    · rfl

/-- Claim C9: for an 11-digit Norwegian BBAN whose first ten digits have a
weighted sum (weights 5,4,3,2,7,6,5,4,3,2) with remainder 1 modulo 11,
`checkNorwegianBBAN` is false — the derived control value would be 10, which
no decimal digit equals — and consequently no input whose normalized form is
a Norwegian IBAN carrying such a BBAN is accepted by `isValidIBAN`. -/
theorem norwegian_remainder_one_rejected (bban v : String)
    (hlen : bban.data.length = 11) (hdig : bban.data.all isDigitChar = true)
    (hsum : natWSum (bban.data.take 10) norWeights 10 % 11 = 1) :
    checkNorwegianBBAN bban = false ∧
      ((normalizeIban v).take 2 = "NO".data → (normalizeIban v).drop 4 = bban.data →
        isValidIBAN (.jstr v) ≠ some true) := by
  have hfalse : checkNorwegianBBAN bban = false := by
    rw [checkNorwegianBBAN_eq bban hlen hdig, hsum]
    rw [if_neg (by norm_num)]
    have hd9 : digitAt bban.data 10 ≤ 9 :=
      digitToNat_le_nine (getD_digit_of_all hdig (by omega))
    exact decide_eq_false (by omega)
  refine ⟨hfalse, ?_⟩
  intro h2 h4 htrue
  have hs : stages17 v = some true := isValidIBANStr_true_stages htrue
  have hfacts := stages17_facts hs
  have hNO : countrySpecs (String.mk ((normalizeIban v).take 2))
      = some ⟨some 15, some [(.digit, 11)], some .norwegian, true, true⟩ := by
    rw [h2]
    rfl
  have hrun := (hfacts.2.2 _ hNO).2 .norwegian rfl
  rw [h4] at hrun
  have hdisp : runValidator BBANValidator.norwegian bban.data
      = some (checkNorwegianBBAN bban) := rfl
  rw [hdisp, hfalse] at hrun
  cases hrun

theorem norwegian_remainder_one_rejected_witness :
    checkNorwegianBBAN "90000000005" = false ∧
      isValidIBAN (.jstr "NO0090000000005") ≠ some true := by
  have h := norwegian_remainder_one_rejected "90000000005" "NO0090000000005"
    (by decide) (by decide) (by decide)
  exact ⟨h.1, h.2 (by decide) (by decide)⟩

theorem take_ne_nil {cs : List Char} {n : Nat} (hn : n ≠ 0) (h : cs ≠ []) :
    cs.take n ≠ [] := by
  intro hh
  have := congrArg List.length hh
  simp only [List.length_take, List.length_nil] at this
  have hp : 0 < cs.length := List.length_pos.mpr h
  omega

theorem drop_ne_nil {cs : List Char} {n : Nat} (h : n < cs.length) :
    cs.drop n ≠ [] := by
  intro hh
  have := congrArg List.length hh
  simp only [List.length_drop, List.length_nil] at this
  omega

/-- Claim C6: for a 12-digit Belgian BBAN, `checkBelgianBBAN` is true exactly
when the value of the first 10 digits modulo 97 — with remainder 0 replaced
by 97 — equals the value of the last two digits. -/
theorem belgian_self_check (bban : String) (hlen : bban.data.length = 12)
    (hdig : bban.data.all isDigitChar = true) :
    checkBelgianBBAN bban
      = decide ((if digitsToNat (bban.data.take 10) % 97 = 0 then 97
                 else digitsToNat (bban.data.take 10) % 97)
          = digitsToNat (bban.data.drop 10)) := by
  unfold checkBelgianBBAN
  dsimp only
  rw [filter_spaceDot_digits hdig, hlen]
  norm_num
  rw [jsParseIntL_digits (take_ne_nil (by norm_num) (by intro hh; rw [hh] at hlen; simp at hlen))
    (fun c hc => List.all_eq_true.mp (all_take hdig 10) c hc)]
  rw [jsParseIntL_digits (drop_ne_nil (by omega))
    (fun c hc => List.all_eq_true.mp (all_drop hdig 10) c hc)]
  rw [show (some 97 : JSNum) = some (((97 : Nat) : Int)) by norm_num]
  rw [jsMod_coe _ _ (by norm_num)]
  by_cases h : digitsToNat (bban.data.take 10) % 97 = 0
  · rw [if_pos (by rw [jsEq_some_some]; simp [h]), if_pos h, jsEq_coe_nat]
  · have hcond : ¬(jsEq (some ((digitsToNat (bban.data.take 10) % 97 : Nat) : Int))
        (some 0) = true) := by
      rw [jsEq_some_some]
      simp only [decide_eq_true_eq, Nat.cast_eq_zero]
      exact h
    rw [if_neg hcond, if_neg h, jsEq_coe_nat]

theorem belgian_self_check_witness :
    ("539007547034".data.length = 12) ∧
      ("539007547034".data.all isDigitChar = true) ∧
      checkBelgianBBAN "539007547034"
        = decide ((if digitsToNat ("539007547034".data.take 10) % 97 = 0 then 97
                   else digitsToNat ("539007547034".data.take 10) % 97)
            = digitsToNat ("539007547034".data.drop 10)) :=
  ⟨by decide, by decide, belgian_self_check "539007547034" (by decide) (by decide)⟩

theorem jsParseInt_charAt_digit {cs : List Char} {i : Nat} (h : i < cs.length)
    (hd : cs.all isDigitChar = true) :
    jsParseIntL (charAtL cs i) = some ((digitAt cs i : Nat) : Int) := by
  rw [charAtL_eq h, jsParseIntL_single_digit (getD_digit_of_all hd h)]
  rfl

/-- Claim C5: for a 24-digit Hungarian BBAN, `checkHungarianBBAN` first
re-derives the bank/branch control digit at position 7 from the weighted sum
of positions 0-6, then — selecting on whether the BBAN ends with eight '0'
characters — re-derives the account control digit either at position 15 from
positions 8-14 or at position 23 from positions 8-22, and is true exactly
when the bank/branch check and the selected account check both pass. -/
theorem hungarian_variable_field (bban : String) (hlen : bban.data.length = 24)
    (hdig : bban.data.all isDigitChar = true) :
    checkHungarianBBAN bban
      = (decide (digitAt bban.data 7
            = ctlMod10 (natWSum (bban.data.take 7) hunWeights 7)) &&
         (if List.isSuffixOf "00000000".data bban.data then
            decide (digitAt bban.data 15
              = ctlMod10 (natWSum ((bban.data.drop 8).take 7) hunWeights 7))
          else
            decide (digitAt bban.data 23
              = ctlMod10 (natWSum ((bban.data.drop 8).take 15) hunWeights 15)))) := by
  unfold checkHungarianBBAN
  dsimp only
  have h7 : (bban.data.take 7).length = 7 := by
    rw [List.length_take]
    omega
  rw [h7]
  rw [jsParseInt_charAt_digit (show (7 : Nat) < bban.data.length by omega) hdig]
  rw [jsWeightedSum_digits 7 _ _ (by rw [List.length_take]; omega) (by decide)
    (all_take hdig 7)]
  rw [show (some 10 : JSNum) = some (((10 : Nat) : Int)) by norm_num]
  rw [jsMod_coe _ _ (by norm_num)]
  rw [jsCtl10]
  by_cases hd : digitAt bban.data 7 = ctlMod10 (natWSum (bban.data.take 7) hunWeights 7)
  case neg =>
    rw [if_pos (by simp [hd]), decide_eq_false hd, Bool.false_and]
  case pos =>
    rw [if_neg (by simp [hd]), decide_eq_true hd, Bool.true_and]
    by_cases hsuf : List.isSuffixOf "00000000".data bban.data
    · rw [if_pos hsuf, if_pos hsuf]
      have h15 : ((bban.data.drop 8).take 7).length = 7 := by
        rw [List.length_take, List.length_drop]
        omega
      rw [h15]
      rw [jsParseInt_charAt_digit (show (15 : Nat) < bban.data.length by omega) hdig]
      rw [jsWeightedSum_digits 7 _ _ (by rw [List.length_take, List.length_drop]; omega)
        (by decide) (all_take (all_drop hdig 8) 7)]
      rw [jsMod_coe _ _ (by norm_num)]
      exact jsCtl10 _ _
    · rw [if_neg hsuf, if_neg hsuf]
      have h23 : ((bban.data.drop 8).take 15).length = 15 := by
        rw [List.length_take, List.length_drop]
        omega
      rw [h23]
      rw [jsParseInt_charAt_digit (show (23 : Nat) < bban.data.length by omega) hdig]
      rw [jsWeightedSum_digits 15 _ _ (by rw [List.length_take, List.length_drop]; omega)
        (by decide) (all_take (all_drop hdig 8) 15)]
      rw [jsMod_coe _ _ (by norm_num)]
      exact jsCtl10 _ _

theorem hungarian_variable_field_witness :
    ("117730161111101800000000".data.length = 24) ∧
      ("117730161111101800000000".data.all isDigitChar = true) ∧
      checkHungarianBBAN "117730161111101800000000"
        = (decide (digitAt "117730161111101800000000".data 7
              = ctlMod10 (natWSum ("117730161111101800000000".data.take 7) hunWeights 7)) &&
           (if List.isSuffixOf "00000000".data "117730161111101800000000".data then
              decide (digitAt "117730161111101800000000".data 15
                = ctlMod10 (natWSum (("117730161111101800000000".data.drop 8).take 7) hunWeights 7))
            else
              decide (digitAt "117730161111101800000000".data 23
                = ctlMod10 (natWSum (("117730161111101800000000".data.drop 8).take 15) hunWeights 15)))) :=
  ⟨by decide, by decide,
    hungarian_variable_field "117730161111101800000000" (by decide) (by decide)⟩

/-- Claim C10: the Spanish and Czech/Slovak strategies both apply the
three-way modulo-11 control rule (0 maps to 0, 1 maps to 1, otherwise
11 - remainder) to each of their two sub-fields and accept exactly when both
embedded control digits match; in particular a sub-field whose weighted sum
has remainder 1 is accepted iff its control digit equals 1 (not 10). -/
theorem spanish_czech_three_way (bban : String) (hlen : bban.data.length = 20)
    (hdig : bban.data.all isDigitChar = true) :
    (checkSpanishBBAN bban
      = (decide (digitAt bban.data 8
            = ctlMod11 (natWSum (bban.data.take 8) [4, 8, 5, 10, 9, 7, 3, 6] 8)) &&
         decide (digitAt bban.data 9
            = ctlMod11 (natWSum ((bban.data.drop 10).take 10)
                [1, 2, 4, 8, 5, 10, 9, 7, 3, 6] 10)))) ∧
    (checkCzechSlovakBBAN bban
      = (decide (digitAt bban.data 9
            = ctlMod11 (natWSum ((bban.data.drop 4).take 5) [10, 5, 8, 4, 2, 1] 5)) &&
         decide (digitAt bban.data 19
            = ctlMod11 (natWSum ((bban.data.drop 10).take 9)
                [6, 3, 7, 9, 10, 5, 8, 4, 2, 1] 9)))) ∧
    (natWSum (bban.data.take 8) [4, 8, 5, 10, 9, 7, 3, 6] 8 % 11 = 1 →
      checkSpanishBBAN bban
        = (decide (digitAt bban.data 8 = 1) &&
           decide (digitAt bban.data 9
              = ctlMod11 (natWSum ((bban.data.drop 10).take 10)
                  [1, 2, 4, 8, 5, 10, 9, 7, 3, 6] 10)))) ∧
    (natWSum ((bban.data.drop 4).take 5) [10, 5, 8, 4, 2, 1] 5 % 11 = 1 →
      checkCzechSlovakBBAN bban
        = (decide (digitAt bban.data 9 = 1) &&
           decide (digitAt bban.data 19
              = ctlMod11 (natWSum ((bban.data.drop 10).take 9)
                  [6, 3, 7, 9, 10, 5, 8, 4, 2, 1] 9)))) := by
  have hes : checkSpanishBBAN bban
      = (decide (digitAt bban.data 8
            = ctlMod11 (natWSum (bban.data.take 8) [4, 8, 5, 10, 9, 7, 3, 6] 8)) &&
         decide (digitAt bban.data 9
            = ctlMod11 (natWSum ((bban.data.drop 10).take 10)
                [1, 2, 4, 8, 5, 10, 9, 7, 3, 6] 10))) := by
    unfold checkSpanishBBAN
    dsimp only
    rw [jsParseInt_charAt_digit (show (8 : Nat) < bban.data.length by omega) hdig]
    rw [jsParseInt_charAt_digit (show (9 : Nat) < bban.data.length by omega) hdig]
    rw [jsWeightedSum_digits 8 _ _ (by rw [List.length_take]; omega) (by decide)
      (all_take hdig 8)]
    rw [jsWeightedSum_digits 10 _ _ (by rw [List.length_take, List.length_drop]; omega)
      (by decide) (all_take (all_drop hdig 10) 10)]
    rw [show (some 11 : JSNum) = some (((11 : Nat) : Int)) by norm_num]
    rw [jsMod_coe _ _ (by norm_num), jsMod_coe _ _ (by norm_num)]
    rw [jsCtl11three, jsCtl11three]
    by_cases hp : digitAt bban.data 8
        = ctlMod11 (natWSum (bban.data.take 8) [4, 8, 5, 10, 9, 7, 3, 6] 8)
    · rw [if_neg (by simp [hp]), decide_eq_true hp, Bool.true_and]
    · rw [if_pos (by simp [hp]), decide_eq_false hp, Bool.false_and]
  have hcz : checkCzechSlovakBBAN bban
      = (decide (digitAt bban.data 9
            = ctlMod11 (natWSum ((bban.data.drop 4).take 5) [10, 5, 8, 4, 2, 1] 5)) &&
         decide (digitAt bban.data 19
            = ctlMod11 (natWSum ((bban.data.drop 10).take 9)
                [6, 3, 7, 9, 10, 5, 8, 4, 2, 1] 9))) := by
    unfold checkCzechSlovakBBAN
    dsimp only
    have h5 : ((bban.data.drop 4).take 5).length = 5 := by
      rw [List.length_take, List.length_drop]
      omega
    have h9 : ((bban.data.drop 10).take 9).length = 9 := by
      rw [List.length_take, List.length_drop]
      omega
    rw [h5, h9]
    rw [jsParseInt_charAt_digit (show (9 : Nat) < bban.data.length by omega) hdig]
    rw [jsParseInt_charAt_digit (show (19 : Nat) < bban.data.length by omega) hdig]
    rw [jsWeightedSum_digits 5 _ _ (by rw [List.length_take, List.length_drop]; omega)
      (by decide) (all_take (all_drop hdig 4) 5)]
    rw [jsWeightedSum_digits 9 _ _ (by rw [List.length_take, List.length_drop]; omega)
      (by decide) (all_take (all_drop hdig 10) 9)]
    rw [show (some 11 : JSNum) = some (((11 : Nat) : Int)) by norm_num]
    rw [jsMod_coe _ _ (by norm_num), jsMod_coe _ _ (by norm_num)]
    rw [jsCtl11three, jsCtl11three]
    by_cases hp : digitAt bban.data 9
        = ctlMod11 (natWSum ((bban.data.drop 4).take 5) [10, 5, 8, 4, 2, 1] 5)
    · rw [if_neg (by simp [hp]), decide_eq_true hp, Bool.true_and]
    · rw [if_pos (by simp [hp]), decide_eq_false hp, Bool.false_and]
  refine ⟨hes, hcz, ?_, ?_⟩
  · intro hsum
    rw [hes]
    have : ctlMod11 (natWSum (bban.data.take 8) [4, 8, 5, 10, 9, 7, 3, 6] 8) = 1 := by
      simp [ctlMod11, hsum]
    rw [this]
  · intro hsum
    rw [hcz]
    have : ctlMod11 (natWSum ((bban.data.drop 4).take 5) [10, 5, 8, 4, 2, 1] 5) = 1 := by
      simp [ctlMod11, hsum]
    rw [this]

theorem spanish_czech_three_way_witness :
    ("00000000000000000000".data.length = 20) ∧
      ("00000000000000000000".data.all isDigitChar = true) ∧
      checkSpanishBBAN "00000000000000000000"
        = (decide (digitAt "00000000000000000000".data 8
              = ctlMod11 (natWSum ("00000000000000000000".data.take 8)
                  [4, 8, 5, 10, 9, 7, 3, 6] 8)) &&
           decide (digitAt "00000000000000000000".data 9
              = ctlMod11 (natWSum (("00000000000000000000".data.drop 10).take 10)
                  [1, 2, 4, 8, 5, 10, 9, 7, 3, 6] 10))) :=
  ⟨by decide, by decide,
    (spanish_czech_three_way "00000000000000000000" (by decide) (by decide)).1⟩

theorem isUpperAZ_toNat {c : Char} (h : isUpperAZ c = true) :
    65 ≤ c.toNat ∧ c.toNat ≤ 90 := by
  simpa [isUpperAZ, Bool.and_eq_true, decide_eq_true_eq] using h

theorem shapeOK_chars : ∀ {cs : List Char}, shapeOK cs = true →
    ∀ c ∈ cs, isUpperAZ c = true ∨ isDigitChar c = true
  | [], h => Bool.noConfusion h
  | [_], h => Bool.noConfusion h
  | [_, _], h => Bool.noConfusion h
  | [_, _, _], h => Bool.noConfusion h
  | c0 :: c1 :: c2 :: c3 :: rest, h => by
      simp only [shapeOK, Bool.and_eq_true] at h
      obtain ⟨⟨⟨⟨⟨h0, h1⟩, h2⟩, h3⟩, _⟩, hall⟩ := h
      intro c hc
      simp only [List.mem_cons] at hc
      rcases hc with rfl | rfl | rfl | rfl | hc
      · exact Or.inl h0
      · exact Or.inl h1
      · exact Or.inr h2
      · exact Or.inr h3
      · have := List.all_eq_true.mp hall c hc
        rcases Bool.or_eq_true _ _ |>.mp this with hu | hd
        · exact Or.inl hu
        · exact Or.inr hd

theorem ibanCharSub_eq_iso {c : Char}
    (h : isUpperAZ c = true ∨ isDigitChar c = true) :
    ibanCharSub c = isoLetterSub c := by
  unfold ibanCharSub isoLetterSub
  rcases h with h | h
  · obtain ⟨h1, h2⟩ := isUpperAZ_toNat h
    rw [if_pos h1, if_pos h]
    congr 2
    omega
  · obtain ⟨h1, h2⟩ := isDigitChar_toNat h
    have hu : isUpperAZ c = false := by
      simp only [isUpperAZ, Bool.and_eq_true, decide_eq_true_eq]
      simp only [Bool.and_eq_false_iff, decide_eq_false_iff_not]
      omega
    rw [if_neg (by omega), if_neg (by simp [hu])]

theorem isoLetterSub_ne_nil {c : Char}
    (h : isUpperAZ c = true ∨ isDigitChar c = true) : isoLetterSub c ≠ [] := by
  unfold isoLetterSub
  rcases h with h | h
  · obtain ⟨h1, h2⟩ := isUpperAZ_toNat h
    rw [if_pos h]
    exact (reprFacts (c.toNat - 65 + 10) (by omega)).1
  · obtain ⟨h1, h2⟩ := isDigitChar_toNat h
    have hu : isUpperAZ c = false := by
      simp only [isUpperAZ, Bool.and_eq_false_iff, decide_eq_false_iff_not]
      omega
    rw [if_neg (by simp [hu])]
    simp

theorem isoLetterSub_digits {c : Char}
    (h : isUpperAZ c = true ∨ isDigitChar c = true) :
    ∀ d ∈ isoLetterSub c, isDigitChar d = true := by
  unfold isoLetterSub
  rcases h with h | h
  · obtain ⟨h1, h2⟩ := isUpperAZ_toNat h
    rw [if_pos h]
    exact List.all_eq_true.mp (reprFacts (c.toNat - 65 + 10) (by omega)).2.1
  · obtain ⟨h1, h2⟩ := isDigitChar_toNat h
    have hu : isUpperAZ c = false := by
      simp only [isUpperAZ, Bool.and_eq_false_iff, decide_eq_false_iff_not]
      omega
    rw [if_neg (by simp [hu])]
    intro d hd
    simp only [List.mem_singleton] at hd
    subst hd
    exact h

theorem flatten_iso_digits {l : List Char}
    (h : ∀ c ∈ l, isUpperAZ c = true ∨ isDigitChar c = true) :
    ∀ d ∈ (l.map isoLetterSub).flatten, isDigitChar d = true := by
  intro d hd
  rcases List.mem_flatten.mp hd with ⟨blk, hblk, hdin⟩
  rcases List.mem_map.mp hblk with ⟨c, hc, rfl⟩
  exact isoLetterSub_digits (h c hc) d hdin

theorem flatten_iso_ne_nil : ∀ {l : List Char}, l ≠ [] →
    (∀ c ∈ l, isUpperAZ c = true ∨ isDigitChar c = true) →
    (l.map isoLetterSub).flatten ≠ []
  | [], h0, _ => absurd rfl h0
  | c :: t, _, h => by
      simp only [List.map_cons, List.flatten_cons]
      intro hh
      exact isoLetterSub_ne_nil (h c (by simp)) (List.append_eq_nil.mp hh).1

/-- Claim C4: whenever stages 1-7 of the orchestrator succeed, `isValidIBAN`
returns true exactly when the normalized IBAN with its 4-character prefix
moved to the end and every letter replaced by its universal ISO numeric
equivalent (A=10 ... Z=35) has numeric value congruent to 1 modulo 97. -/
theorem universal_checksum_iff (v : String) (h : stages17 v = some true) :
    (isValidIBAN (.jstr v) = some true ↔
      digitsToNat (isoChecksumInput (normalizeIban v)) % 97 = 1) := by
  obtain ⟨hshape, ⟨hlen15, hlen34⟩, _⟩ := stages17_facts h
  have hchars := shapeOK_chars hshape
  have hrearr : ∀ c ∈ (normalizeIban v).drop 4 ++ (normalizeIban v).take 4,
      isUpperAZ c = true ∨ isDigitChar c = true := by
    intro c hc
    rcases List.mem_append.mp hc with hc | hc
    · exact hchars c (List.drop_subset _ _ hc)
    · exact hchars c (List.take_subset _ _ hc)
  have hrne : (normalizeIban v).drop 4 ++ (normalizeIban v).take 4 ≠ [] := by
    intro hh
    have := congrArg List.length hh
    simp only [List.length_append, List.length_take, List.length_drop,
      List.length_nil] at this
    omega
  have hne := flatten_iso_ne_nil hrne hrearr
  have hdigs := flatten_iso_digits hrearr
  have hval : isValidIBAN (.jstr v) = isValidIBANChecksum (normalizeIban v) := by
    show isValidIBANStr v = _
    unfold isValidIBANStr
    rw [h]
  rw [hval]
  unfold isValidIBANChecksum isoChecksumInput
  dsimp only
  rw [List.map_congr_left (fun c hc => ibanCharSub_eq_iso (hrearr c hc))]
  rw [mod97L_digits hne hdigs]
  rw [Option.map_some']
  rw [show (some 1 : JSNum) = some (((1 : Nat) : Int)) by norm_num, jsEq_coe_nat]
  simp

theorem universal_checksum_iff_witness :
    stages17 "NL91ABNA0417164300" = some true ∧
      (isValidIBAN (.jstr "NL91ABNA0417164300") = some true ↔
        digitsToNat (isoChecksumInput (normalizeIban "NL91ABNA0417164300")) % 97 = 1) :=
  ⟨by decide, universal_checksum_iff "NL91ABNA0417164300" (by decide)⟩

/-- Claim C1: the concrete fixtures of spec section 8 evaluate as stated:
the four reference IBANs (NL, BE, NO, FR) validate to true, their
check-digit mutants to false, and "", "A", "   ", as well as null and any
other non-string input, to false. -/
theorem fixture_evaluations :
    isValidIBAN (.jstr "NL91ABNA0417164300") = some true ∧
    isValidIBAN (.jstr "NL91ABNA0417164301") = some false ∧
    isValidIBAN (.jstr "BE68539007547034") = some true ∧
    isValidIBAN (.jstr "BE68539007547035") = some false ∧
    isValidIBAN (.jstr "NO9386011117947") = some true ∧
    isValidIBAN (.jstr "NO9386011117948") = some false ∧
    isValidIBAN (.jstr "FR1420041010050500013M02606") = some true ∧
    isValidIBAN (.jstr "") = some false ∧
    isValidIBAN (.jstr "A") = some false ∧
    isValidIBAN (.jstr "   ") = some false ∧
    isValidIBAN .nonString = some false := by
  decide

theorem normalizeIban_strip (s : String) :
    normalizeIban (stripSpacesHyphens s) = normalizeIban s := by
  unfold normalizeIban stripSpacesHyphens
  show ((s.data.filter _).filter _).map Char.toUpper = _
  congr 1
  rw [List.filter_filter]
  have hpt : ∀ c : Char,
      ((!(jsWhitespaceChar c || c == '-')) && (!(c == ' ' || c == '-')))
        = (!(jsWhitespaceChar c || c == '-')) := by
    intro c
    by_cases hsp : c = ' '
    · subst hsp
      decide
    · have hb : (c == ' ') = false := beq_eq_false_iff_ne.mpr hsp
      rw [hb]
      cases hws : jsWhitespaceChar c <;> cases hd : (c == '-') <;> simp
  exact List.filter_congr fun c _ => hpt c

/-- Claim C8: separator insensitivity — validating any string gives the same
result as validating the string with all spaces and hyphens removed, so
separator-formatted IBANs such as "NL91 ABNA 0417 1643 00" validate exactly
like their compact forms. -/
theorem separator_insensitive (s : String) :
    isValidIBAN (.jstr s) = isValidIBAN (.jstr (stripSpacesHyphens s)) := by
  by_cases hempty : s = ""
  · subst hempty
    rfl
  · by_cases h2 : stripSpacesHyphens s = ""
    · have hq : s.data.filter (fun c => !(c == ' ' || c == '-')) = [] :=
        congrArg String.data h2
      have hp : s.data.filter (fun c => !(jsWhitespaceChar c || c == '-')) = [] := by
        rw [List.filter_eq_nil_iff] at hq ⊢
        intro a ha hpa
        apply hq a ha
        simp only [Bool.not_eq_true', Bool.or_eq_false_iff] at hpa ⊢
        obtain ⟨hws, hd⟩ := hpa
        refine ⟨?_, hd⟩
        apply beq_eq_false_iff_ne.mpr
        intro hsp
        subst hsp
        exact absurd hws (by decide)
      have hn : normalizeIban s = [] := by
        unfold normalizeIban
        rw [hp]
        rfl
      have hstage : stages17 s = some false := by
        unfold stages17
        rw [if_neg hempty, hn]
        rw [if_pos (by simp)]
      show isValidIBANStr s = isValidIBANStr (stripSpacesHyphens s)
      rw [h2]
      have hrhs : isValidIBANStr "" = some false := by decide
      rw [hrhs]
      unfold isValidIBANStr
      rw [hstage]
    · have hnorm := normalizeIban_strip s
      show isValidIBANStr s = isValidIBANStr (stripSpacesHyphens s)
      have hstages : stages17 (stripSpacesHyphens s) = stages17 s := by
        unfold stages17
        rw [hnorm, if_neg h2, if_neg hempty]
      unfold isValidIBANStr
      rw [hstages, hnorm]

/-- Claim C7 counterexample: `checkMod97BBAN` — the strategy used by BA, ME,
MK, PT, RS and SI — returns true on "0 0098", a six-character input
containing a space that matches none of the structural BBAN
patterns of those countries, instead of returning false on every non-matching input. -/
theorem strategy_nonmatching_counterexample :
    checkMod97BBAN "0 0098" = some true ∧
      patMatch [(.digit, 16)] "0 0098".data = false ∧
      patMatch [(.digit, 18)] "0 0098".data = false ∧
      patMatch [(.digit, 3), (.alnum, 10), (.digit, 2)] "0 0098".data = false ∧
      patMatch [(.digit, 21)] "0 0098".data = false ∧
      patMatch [(.digit, 15)] "0 0098".data = false := by
  decide

theorem jsWhitespaceChar_eq_false_of_upper {c : Char} (h : isUpperAZ c = true) :
    jsWhitespaceChar c = false := by
  obtain ⟨h1, h2⟩ := isUpperAZ_toNat h
  simp only [jsWhitespaceChar, jsWhitespaceCodes]
  simp only [decide_eq_false_iff_not, List.mem_cons, List.mem_singleton,
    List.not_mem_nil, or_false]
  omega

theorem filter_spaceDot_alnum {cs : List Char}
    (h : ∀ c ∈ cs, isUpperAZ c = true ∨ isDigitChar c = true) :
    cs.filter (fun c => !jsSpaceDot c) = cs := by
  apply List.filter_eq_self.mpr
  intro c hc
  have hws : jsWhitespaceChar c = false := by
    rcases h c hc with hu | hd
    · exact jsWhitespaceChar_eq_false_of_upper hu
    · exact jsWhitespaceChar_eq_false_of_digit hd
  have hne : (c == '.') = false := by
    apply beq_eq_false_iff_ne.mpr
    intro hh
    subst hh
    rcases h _ hc with hu | hd
    · exact absurd (isUpperAZ_toNat hu).1 (by decide)
    · exact absurd (isDigitChar_toNat hd).1 (by decide)
  simp [jsSpaceDot, hws, hne]

theorem frenchSub_digit {c : Char}
    (h : isUpperAZ c = true ∨ isDigitChar c = true) :
    isDigitChar (frenchSub c) = true := by
  rcases h with h | h
  · obtain ⟨h1, h2⟩ := isUpperAZ_toNat h
    unfold frenchSub
    rw [if_pos h1]
    obtain ⟨n, hn⟩ : ∃ n, c.toNat = n := ⟨_, rfl⟩
    rw [hn] at h1 h2 ⊢
    interval_cases n <;> rfl
  · obtain ⟨h1, h2⟩ := isDigitChar_toNat h
    unfold frenchSub
    rw [if_neg (by omega)]
    exact h

/-- Claim C7 (amended): every strategy is a total boolean function of its
input (the eight `parseInt`-based strategies on all strings by construction;
the two `mod97`-based strategies terminate on every non-empty input drawn
from the character classes of their countries), and every strategy returns false
on the empty string.  The original universally quantified "returns false on every
non-matching input" is refuted by the counterexample, and the mod97-based
strategies can even fail to terminate on strings starting with a sign (for
example "-26", whose remainder string reproduces itself). -/
theorem strategies_total_amended :
    (∀ s : String, s ≠ "" → s.data.all isDigitChar = true →
       (checkMod97BBAN s).isSome = true) ∧
    (∀ s : String, s ≠ "" →
       (∀ c ∈ s.data, isUpperAZ c = true ∨ isDigitChar c = true) →
       (checkFrenchBBAN s).isSome = true) ∧
    checkMod97BBAN "" = some false ∧
    checkBelgianBBAN "" = false ∧
    checkCzechSlovakBBAN "" = false ∧
    checkEstonianBBAN "" = false ∧
    checkSpanishBBAN "" = false ∧
    checkFrenchBBAN "" = some false ∧
    checkCroatianBBAN "" = false ∧
    checkHungarianBBAN "" = false ∧
    checkNorwegianBBAN "" = false ∧
    checkPolishBBAN "" = false := by
  refine ⟨?_, ?_, by decide, by decide, by decide, by decide, by decide,
    by decide, by decide, by decide, by decide, by decide⟩
  · intro s h0 h1
    have h0l : s.data ≠ [] := fun hh => h0 (String.ext (hh.trans rfl))
    unfold checkMod97BBAN
    dsimp only
    rw [filter_spaceDot_digits h1,
      mod97L_digits h0l (fun c hc => List.all_eq_true.mp h1 c hc)]
    rfl
  · intro s h0 h1
    have h0l : s.data ≠ [] := fun hh => h0 (String.ext (hh.trans rfl))
    unfold checkFrenchBBAN
    dsimp only
    rw [filter_spaceDot_alnum h1]
    have hmne : s.data.map frenchSub ≠ [] := by
      intro hh
      exact h0l (List.map_eq_nil_iff.mp hh)
    have hmd : ∀ c ∈ s.data.map frenchSub, isDigitChar c = true := by
      intro c hc
      rcases List.mem_map.mp hc with ⟨a, ha, rfl⟩
      exact frenchSub_digit (h1 a ha)
    rw [mod97L_digits hmne hmd]
    rfl

theorem strategies_total_amended_witness :
    (checkMod97BBAN "1234567890123456").isSome = true ∧
      (checkFrenchBBAN "20041010050500013M02606").isSome = true :=
  ⟨strategies_total_amended.1 "1234567890123456" (by decide) (by decide),
    strategies_total_amended.2.1 "20041010050500013M02606" (by decide) (by decide)⟩

theorem mod97Iter_neg26 : ∀ n, mod97Iter n "-26".data = none := by
  intro n
  induction n with
  | zero => rfl
  | succ m ih =>
      unfold mod97Iter
      rw [if_pos (by decide)]
      dsimp only
      rw [show jsParseIntL ("-26".data.take 9) = some (-26) from by decide]
      dsimp only
      rw [show (jsIntRepr (Int.tmod (-26) 97)).data
            ++ List.drop (List.take 9 "-26".data).length "-26".data
          = "-26".data from by decide]
      exact ih
